import Mathlib

/-!
Verification of the `ldproxy-config-generator` orchestration layer
(`ldproxy_api_scaffold/api.py`, class `LDProxyConfigGenerator`).

The repository ships only the orchestrator; the collaborators it imports
(`DatabaseClient`, `ApiService`, `SQLProvider`, `TileProvider`) are absent
from the sources, so they are modelled from the specification's contracts
(sections 4.1-4.4), while the orchestrator itself (`__init__`,
`_init_resources`, `generate_yaml_files`, `dispose_engine`) is embedded
directly from the Python source.
-/

/-- A column of a database table: its name and its native type string. -/
structure ColumnDescriptor where
  name : String
  dtype : String
deriving DecidableEq, Repr

/-- One table of the normalized table model: name, ordered columns,
designated primary-key column and optional geometry column. -/
structure TableEntry where
  name : String
  columns : List ColumnDescriptor
  primary_key : String
  geometry_column : Option String
deriving DecidableEq, Repr

/-- The canonical table model (`table_config` in the source): an ordered
sequence of table entries, keyed by table name. -/
abbrev TableConfig := List TableEntry

/-- Error taxonomy of the spec (section 7). `disposedError` appears in the
spec's state machine only; nothing in the code produces it. -/
inductive MetaError where
  | connectionError
  | notFoundError (missing : List String)
  | unsupportedTypeError (table column : String)
  | disposedError
deriving DecidableEq, Repr

/-- Modelled from the spec: the `DatabaseClient` of
`ldproxy_api_scaffold.utils.db` is not in the sources. Its observable state:
connection string, schema name, whether the database is reachable and the
schema exists, the schema's tables (a metadata snapshot), and whether the
underlying engine has been disposed. -/
structure DatabaseClient where
  db_conn_str : String
  schema_name : String
  reachable : Bool
  schema_exists : Bool
  schema_tables : List TableEntry
  disposed : Bool
deriving DecidableEq, Repr

/-- Modelled from the spec: `DatabaseClient.get_schema_tables` is not in the
sources. Spec 4.1 `listTables`: returns the sequence of table names of the
schema; `ConnectionError` if the schema cannot be reached, `NotFoundError`
if it does not exist. -/
def DatabaseClient.get_schema_tables (db : DatabaseClient) :
    Except MetaError (List String) :=
  if db.reachable = false then Except.error MetaError.connectionError
  else if db.schema_exists = false then
    Except.error (MetaError.notFoundError [db.schema_name])
  else Except.ok (db.schema_tables.map (fun t => t.name))

/-- The requested table names not present in the schema snapshot. -/
def DatabaseClient.missingTables (db : DatabaseClient)
    (names : List String) : List String :=
  names.filter
    (fun n => (db.schema_tables.find? (fun t => t.name = n)).isNone)

/-- Modelled from the spec: `DatabaseClient.create_table_config` is not in
the sources. Spec 4.1 `buildTableModel`: fetches metadata for each requested
table; missing tables are collected into one `NotFoundError` rather than
failing fast. The resulting model holds exactly the requested tables, in
request order. -/
def DatabaseClient.create_table_config (db : DatabaseClient)
    (names : List String) : Except MetaError TableConfig :=
  if db.reachable = false then Except.error MetaError.connectionError
  else if (db.missingTables names).isEmpty then
    Except.ok (names.filterMap
      (fun n => db.schema_tables.find? (fun t => t.name = n)))
  else Except.error (MetaError.notFoundError (db.missingTables names))

/-- Modelled from the spec: `DatabaseClient.dispose_engine` is not in the
sources. Spec 6: `dispose()` releases the database connection; idempotent. -/
def DatabaseClient.dispose_engine (db : DatabaseClient) : DatabaseClient :=
  { db with disposed := true }

/-- The service generator object, as constructed by `_init_resources`:
`ApiService(self.service_id, self.table_config, self.api_blocks)`. -/
structure ApiService where
  service_id : String
  table_config : TableConfig
  api_blocks : List String
deriving DecidableEq, Repr

/-- The service configuration document (spec 4.2): service id, one feature
type per table of the model in model order, and the enabled building
blocks. -/
structure ServiceDoc where
  id : String
  featureTypes : List String
  buildingBlocks : List String
deriving DecidableEq, Repr

/-- Modelled from the spec: `ApiService`'s document production is not in the
sources. Spec 4.2: feature types appear in the same order as tables in the
model; the enabled flags are passed through. -/
def ApiService.createDoc (s : ApiService) : ServiceDoc :=
  { id := s.service_id
    featureTypes := s.table_config.map (fun t => t.name)
    buildingBlocks := s.api_blocks }

/-- The SQL provider generator object, as constructed by `_init_resources`:
`SQLProvider(self.service_id, force_axis_order="LON_LAT", table_config=...,
engine=..., db_config=None, docker=self.docker)`. The raw engine handle is
an external collaborator (spec 1) and `db_config` is always `None`, so
neither is part of the document-producing state. -/
structure SQLProvider where
  service_id : String
  force_axis_order : String
  table_config : TableConfig
  docker : Bool
deriving DecidableEq, Repr

/-- Spec 4.3 type-mapping policy: text, numeric, boolean, date and geometry
map to logical types; any other native type has no mapping. -/
def mapLogicalType (t : String) : Option String :=
  if t = "text" then some "string"
  else if t = "numeric" then some "number"
  else if t = "boolean" then some "boolean"
  else if t = "date" then some "temporal"
  else if t = "geometry" then some "geometry"
  else none

/-- One provider-type block (spec 4.3): feature-type identity, source table,
primary-key column, optional geometry column, column-to-type property
mapping. -/
structure ProviderEntry where
  featureType : String
  sourceTable : String
  primaryKey : String
  geometry : Option String
  properties : List (String × String)
deriving DecidableEq, Repr

/-- The data-provider configuration document (spec 4.3). -/
structure ProviderDoc where
  id : String
  axisOrder : String
  dockerPaths : Bool
  entries : List ProviderEntry
deriving DecidableEq, Repr

/-- Modelled from the spec: `SQLProvider`'s document production is not in
the sources. Spec 4.3: one block per table in model order; an unmapped
native type fails with `UnsupportedTypeError` naming table and column; the
axis-order and deployment-path policies are applied globally. -/
def SQLProvider.createDoc (p : SQLProvider) : Except MetaError ProviderDoc := do
  let entries ← p.table_config.mapM (fun t => do
    let props ← t.columns.mapM (fun c =>
      match mapLogicalType c.dtype with
      | some lt => Except.ok (c.name, lt)
      | none => Except.error (MetaError.unsupportedTypeError t.name c.name))
    Except.ok (ProviderEntry.mk t.name t.name t.primary_key
      t.geometry_column props))
  Except.ok { id := p.service_id, axisOrder := p.force_axis_order
              dockerPaths := p.docker, entries := entries }

/-- The tile provider generator object, as constructed by `_init_resources`:
`TileProvider(self.service_id, self.table_config)`. -/
structure TileProvider where
  service_id : String
  table_config : TableConfig
deriving DecidableEq, Repr

/-- The tile-provider configuration document (spec 4.4): tilesets for
exactly the tables carrying a geometry column, in model order. -/
structure TileDoc where
  id : String
  tilesets : List String
deriving DecidableEq, Repr

/-- Modelled from the spec: `TileProvider`'s document production is not in
the sources. Spec 4.4: only tables with a geometry column are listed;
tileset identity is derived from the table name like feature-type
identity. -/
def TileProvider.createDoc (tp : TileProvider) : TileDoc :=
  { id := tp.service_id
    tilesets := (tp.table_config.filter
      (fun t => t.geometry_column.isSome)).map (fun t => t.name) }

/-- A generated document handed to the document writer. -/
inductive Doc where
  | service (d : ServiceDoc)
  | provider (d : ProviderDoc)
  | tiles (d : TileDoc)
deriving DecidableEq, Repr

/-- One document-writer call: the output location and the document. -/
structure WriteEvent where
  dir : String
  doc : Doc
deriving DecidableEq, Repr

/-- Observable external effects of the orchestrator: metadata queries
against the database and document-writer calls. -/
inductive Event where
  | queryTables (schema : String)
  | queryColumns (tables : List String)
  | write (w : WriteEvent)
deriving DecidableEq, Repr

/-- Whether an event is a document-writer call. -/
def Event.isWrite : Event → Bool
  | Event.write _ => true
  | _ => false

/-- The orchestrator instance after a successful construction: the fields
assigned by `__init__` and `_init_resources` in the source. -/
structure LDProxyConfigGenerator where
  service_id : String
  schema_name : String
  db_conn_str : String
  target_tables : List String
  api_blocks : List String
  docker : Bool
  db_client : DatabaseClient
  table_config : TableConfig
  service_obj : ApiService
  sql_provider_obj : SQLProvider
  tile_provider_obj : TileProvider
deriving DecidableEq, Repr

/-- The default capability flags of the source:
`api_blocks or ["QUERYABLES", "CRS", "FILTER", "TILES", "STYLES",
"PROJECTIONS"]`. -/
def defaultApiBlocks : List String :=
  ["QUERYABLES", "CRS", "FILTER", "TILES", "STYLES", "PROJECTIONS"]

/-- Python's `api_blocks or default` on an optional list: `None` and the
empty list are both falsy and yield the default; a non-empty list is kept. -/
def pyOrBlocks (a : Option (List String)) : List String :=
  match a with
  | none => defaultApiBlocks
  | some l => if l.isEmpty then defaultApiBlocks else l

/-- Outcome of a construction attempt: the external events it performed and
either the constructed orchestrator or the raised error. -/
structure InitOutcome where
  events : List Event
  result : Except MetaError LDProxyConfigGenerator
deriving Repr

/-- The error component of a construction outcome. -/
def InitOutcome.errorOf : InitOutcome → Option MetaError
  | ⟨_, Except.error e⟩ => some e
  | ⟨_, Except.ok _⟩ => none

/-- The tail of `_init_resources` once the target tables are resolved:
`create_table_config` then construction of the three generator objects,
mirroring the source assignments. -/
def initWithTargets (service_id schema_name db_conn_str : String)
    (targets : List String) (blocks : List String) (docker : Bool)
    (db : DatabaseClient) (evs : List Event) : InitOutcome :=
  match db.create_table_config targets with
  | Except.error e => ⟨evs ++ [Event.queryColumns targets], Except.error e⟩
  | Except.ok tc =>
      ⟨evs ++ [Event.queryColumns targets],
       Except.ok
         { service_id := service_id
           schema_name := schema_name
           db_conn_str := db_conn_str
           target_tables := targets
           api_blocks := blocks
           docker := docker
           db_client := db
           table_config := tc
           service_obj := ApiService.mk service_id tc blocks
           sql_provider_obj := SQLProvider.mk service_id "LON_LAT" tc docker
           tile_provider_obj := TileProvider.mk service_id tc }⟩

/-- `LDProxyConfigGenerator.__init__` followed by `_init_resources`: the
default `api_blocks or [...]`, then, if `target_tables is None`, the schema
enumeration `get_schema_tables`, then `create_table_config` and the three
generator constructions. The `db` argument stands for the external database
reached through `db_conn_str`. -/
def initRun (service_id schema_name db_conn_str : String)
    (target_tables : Option (List String)) (api_blocks : Option (List String))
    (docker : Bool) (db : DatabaseClient) : InitOutcome :=
  let blocks := pyOrBlocks api_blocks
  match target_tables with
  | none =>
      match db.get_schema_tables with
      | Except.error e => ⟨[Event.queryTables schema_name], Except.error e⟩
      | Except.ok ts =>
          initWithTargets service_id schema_name db_conn_str ts blocks docker
            db [Event.queryTables schema_name]
  | some ts =>
      initWithTargets service_id schema_name db_conn_str ts blocks docker db []

/-- Result of one `generate_yaml_files` call: the document-writer calls it
performed, in order, and the error it raised, if any. -/
structure GenResult where
  writes : List WriteEvent
  error : Option MetaError
deriving DecidableEq, Repr

/-- `generate_yaml_files(export_dir)`: `create_yaml` of the service object,
then of the SQL provider object, then of the tile provider object, each
handing its document to the writer for `export_dir`. A document production
that raises aborts the call, leaving the earlier writes performed. -/
def LDProxyConfigGenerator.generate_yaml_files (g : LDProxyConfigGenerator)
    (export_dir : String) : GenResult :=
  let w1 : WriteEvent := ⟨export_dir, Doc.service g.service_obj.createDoc⟩
  match g.sql_provider_obj.createDoc with
  | Except.error e => ⟨[w1], some e⟩
  | Except.ok d =>
      ⟨[w1, ⟨export_dir, Doc.provider d⟩,
        ⟨export_dir, Doc.tiles g.tile_provider_obj.createDoc⟩], none⟩

/-- A `generate_yaml_files` call as a method call threading the instance:
the source method assigns no attribute, so the instance is returned
unchanged. -/
def LDProxyConfigGenerator.generate_call (g : LDProxyConfigGenerator)
    (export_dir : String) : GenResult × LDProxyConfigGenerator :=
  (g.generate_yaml_files export_dir, g)

/-- `dispose_engine()`: delegates to the database client's engine
disposal. -/
def LDProxyConfigGenerator.dispose_engine (g : LDProxyConfigGenerator) :
    LDProxyConfigGenerator :=
  { g with db_client := g.db_client.dispose_engine }

/-! ### Helper lemmas -/

/-- A table entry found by name lookup carries that name. -/
theorem find?_name_eq {lookup : List TableEntry} {n : String} {t : TableEntry}
    (h : lookup.find? (fun u => u.name = n) = some t) : t.name = n := by
  have := List.find?_some h
  simpa using this

/-- Looking up a list of names that are all present yields entries carrying
exactly those names, in order. -/
theorem filterMap_find?_names (lookup : List TableEntry) (names : List String)
    (h : ∀ n ∈ names, (lookup.find? (fun u => u.name = n)).isSome) :
    (names.filterMap (fun n => lookup.find? (fun u => u.name = n))).map
      (fun t => t.name) = names := by
  induction names with
  | nil => rfl
  | cons n ns ih =>
      have h1 : (lookup.find? (fun u => u.name = n)).isSome := h n (by simp)
      obtain ⟨t, ht⟩ := Option.isSome_iff_exists.mp h1
      have hn : t.name = n := find?_name_eq ht
      have hns : ∀ m ∈ ns, (lookup.find? (fun u => u.name = m)).isSome :=
        fun m hm => h m (List.mem_cons_of_mem _ hm)
      rw [List.filterMap_cons, ht, List.map_cons, hn, ih hns]

/-- A successfully built table model consists of exactly the requested
tables, in request order. -/
theorem create_table_config_names (db : DatabaseClient) (names : List String)
    (tc : TableConfig) (h : db.create_table_config names = Except.ok tc) :
    tc.map (fun t => t.name) = names := by
  unfold DatabaseClient.create_table_config at h
  split at h
  · exact absurd h (by simp)
  · split at h
    case isTrue hm =>
      injection h with h
      subst h
      apply filterMap_find?_names
      intro n hn
      cases ho : db.schema_tables.find? (fun u => u.name = n) with
      | some t => rfl
      | none =>
          exfalso
          have hmem : n ∈ db.missingTables names := by
            unfold DatabaseClient.missingTables
            refine List.mem_filter.mpr ⟨hn, ?_⟩
            simp [ho]
          rw [List.isEmpty_iff] at hm
          rw [hm] at hmem
          exact absurd hmem (by simp)
    case isFalse => exact absurd h (by simp)

/-- Fields of the orchestrator constructed by a successful
`_init_resources` run with resolved targets. -/
theorem initWithTargets_result_ok
    {sid sch conn : String} {ts bl : List String} {dk : Bool}
    {db : DatabaseClient} {evs : List Event} {g : LDProxyConfigGenerator}
    (hok : (initWithTargets sid sch conn ts bl dk db evs).result
      = Except.ok g) :
    g.target_tables = ts ∧ g.api_blocks = bl
      ∧ g.service_obj.api_blocks = bl
      ∧ db.create_table_config ts = Except.ok g.table_config
      ∧ g.service_obj = ApiService.mk sid g.table_config bl := by
  unfold initWithTargets at hok
  cases htc : db.create_table_config ts with
  | error e => rw [htc] at hok; exact absurd hok (by simp)
  | ok tc =>
      rw [htc] at hok
      injection hok with h
      subst h
      exact ⟨rfl, rfl, rfl, rfl, rfl⟩

/-- The events and the error of an `initWithTargets` run do not depend on
the capability flags: construction never inspects them. -/
theorem initWithTargets_blocks_independent
    (sid sch conn : String) (ts bl1 bl2 : List String) (dk : Bool)
    (db : DatabaseClient) (evs : List Event) :
    (initWithTargets sid sch conn ts bl1 dk db evs).events
        = (initWithTargets sid sch conn ts bl2 dk db evs).events
      ∧ (initWithTargets sid sch conn ts bl1 dk db evs).errorOf
        = (initWithTargets sid sch conn ts bl2 dk db evs).errorOf := by
  unfold initWithTargets
  cases db.create_table_config ts with
  | error e => exact ⟨rfl, rfl⟩
  | ok tc => exact ⟨rfl, rfl⟩

/-- `initWithTargets` emits only metadata queries, never a document
write. -/
theorem initWithTargets_no_writes
    (sid sch conn : String) (ts bl : List String) (dk : Bool)
    (db : DatabaseClient) (evs : List Event)
    (hevs : evs.all (fun ev => !ev.isWrite) = true) :
    (initWithTargets sid sch conn ts bl dk db evs).events.all
      (fun ev => !ev.isWrite) = true := by
  unfold initWithTargets
  cases db.create_table_config ts with
  | error e =>
      rw [List.all_append, hevs, Bool.true_and]
      rfl
  | ok tc =>
      rw [List.all_append, hevs, Bool.true_and]
      rfl

/-! ### Concrete fixtures (the spec's `geo` scenario, section 8) -/

/-- The `parks` table: polygon geometry, primary key `id`. -/
def parksEntry : TableEntry :=
  ⟨"parks", [⟨"id", "numeric"⟩, ⟨"geom", "geometry"⟩], "id", some "geom"⟩

/-- The `stations` table: no geometry, primary key `id`. -/
def stationsEntry : TableEntry :=
  ⟨"stations", [⟨"id", "numeric"⟩, ⟨"name", "text"⟩], "id", none⟩

/-- A reachable database exposing schema `geo` with `parks` and
`stations`. -/
def geoDB : DatabaseClient :=
  ⟨"postgresql://db", "geo", true, true, [parksEntry, stationsEntry], false⟩

/-- The table model built from `geoDB` for both tables. -/
def geoTC : TableConfig := [parksEntry, stationsEntry]

/-- The orchestrator instance constructed over `geoDB` with
`target_tables=None` and `api_blocks=None`. -/
def geoGen : LDProxyConfigGenerator :=
  { service_id := "svc", schema_name := "geo", db_conn_str := "postgresql://db"
    target_tables := ["parks", "stations"], api_blocks := defaultApiBlocks
    docker := false, db_client := geoDB, table_config := geoTC
    service_obj := ApiService.mk "svc" geoTC defaultApiBlocks
    sql_provider_obj := SQLProvider.mk "svc" "LON_LAT" geoTC false
    tile_provider_obj := TileProvider.mk "svc" geoTC }

/-- The provider document produced for `geoTC`. -/
def geoProviderDoc : ProviderDoc :=
  ⟨"svc", "LON_LAT", false,
   [⟨"parks", "parks", "id", some "geom",
     [("id", "number"), ("geom", "geometry")]⟩,
    ⟨"stations", "stations", "id", none,
     [("id", "number"), ("name", "string")]⟩]⟩

/-- An unreachable database: every metadata call raises
`ConnectionError`. -/
def downDB : DatabaseClient :=
  ⟨"postgresql://db", "geo", false, true, [parksEntry, stationsEntry], false⟩

/-- A table with a `jsonb` column, which has no logical type mapping. -/
def jsonbEntry : TableEntry :=
  ⟨"notes", [⟨"id", "numeric"⟩, ⟨"payload", "jsonb"⟩], "id", none⟩

/-- An orchestrator instance over the `jsonb` table: its provider document
production fails with `UnsupportedTypeError`. -/
def jsonbGen : LDProxyConfigGenerator :=
  { service_id := "svc", schema_name := "geo", db_conn_str := "postgresql://db"
    target_tables := ["notes"], api_blocks := defaultApiBlocks, docker := false
    db_client := { geoDB with schema_tables := [jsonbEntry] }
    table_config := [jsonbEntry]
    service_obj := ApiService.mk "svc" [jsonbEntry] defaultApiBlocks
    sql_provider_obj := SQLProvider.mk "svc" "LON_LAT" [jsonbEntry] false
    tile_provider_obj := TileProvider.mk "svc" [jsonbEntry] }

/-- The orchestrator constructed with the unrecognized flag "BOGUS". -/
def bogusGen : LDProxyConfigGenerator :=
  { service_id := "svc", schema_name := "geo", db_conn_str := "postgresql://db"
    target_tables := ["parks"], api_blocks := ["BOGUS"], docker := false
    db_client := geoDB, table_config := [parksEntry]
    service_obj := ApiService.mk "svc" [parksEntry] ["BOGUS"]
    sql_provider_obj := SQLProvider.mk "svc" "LON_LAT" [parksEntry] false
    tile_provider_obj := TileProvider.mk "svc" [parksEntry] }

/-! ### Claim theorems -/

/-- C1: with `target_tables=None`, construction replaces it by the full
schema enumeration, and the table model — hence the generated document
set — covers exactly those tables, no more, no fewer. -/
theorem targets_default_covers_schema
    (sid sch conn : String) (ab : Option (List String)) (dk : Bool)
    (db : DatabaseClient) (ns : List String) (g : LDProxyConfigGenerator)
    (hns : db.get_schema_tables = Except.ok ns)
    (hok : (initRun sid sch conn none ab dk db).result = Except.ok g) :
    g.target_tables = ns
      ∧ g.table_config.map (fun t => t.name) = ns
      ∧ g.service_obj.createDoc.featureTypes = ns := by
  unfold initRun at hok
  rw [hns] at hok
  replace hok : (initWithTargets sid sch conn ns (pyOrBlocks ab) dk db
      [Event.queryTables sch]).result = Except.ok g := hok
  obtain ⟨h1, _, _, h4, h5⟩ := initWithTargets_result_ok hok
  have hnames := create_table_config_names db ns g.table_config h4
  refine ⟨h1, hnames, ?_⟩
  rw [h5]
  exact hnames

/-- C1 witness: the `geo` schema with `target_tables=None`. -/
theorem targets_default_covers_schema_witness :
    geoGen.target_tables = ["parks", "stations"]
      ∧ geoGen.table_config.map (fun t => t.name) = ["parks", "stations"]
      ∧ geoGen.service_obj.createDoc.featureTypes = ["parks", "stations"] :=
  targets_default_covers_schema "svc" "geo" "postgresql://db" none false
    geoDB ["parks", "stations"] geoGen (by rfl) (by rfl)

/-- C2: with `api_blocks` omitted, the enabled flag set used by the service
generator is exactly QUERYABLES, CRS, FILTER, TILES, STYLES, PROJECTIONS. -/
theorem default_api_blocks_applied
    (sid sch conn : String) (tt : Option (List String)) (dk : Bool)
    (db : DatabaseClient) (g : LDProxyConfigGenerator)
    (hok : (initRun sid sch conn tt none dk db).result = Except.ok g) :
    g.api_blocks = defaultApiBlocks
      ∧ g.service_obj.api_blocks = defaultApiBlocks := by
  unfold initRun at hok
  cases tt with
  | none =>
      cases hts : db.get_schema_tables with
      | error e => rw [hts] at hok; exact absurd hok (by simp)
      | ok ts =>
          rw [hts] at hok
          replace hok : (initWithTargets sid sch conn ts (pyOrBlocks none) dk
              db [Event.queryTables sch]).result = Except.ok g := hok
          obtain ⟨_, h2, h3, _, _⟩ := initWithTargets_result_ok hok
          exact ⟨h2, h3⟩
  | some ts =>
      replace hok : (initWithTargets sid sch conn ts (pyOrBlocks none) dk
          db []).result = Except.ok g := hok
      obtain ⟨_, h2, h3, _, _⟩ := initWithTargets_result_ok hok
      exact ⟨h2, h3⟩

/-- C2 witness: the `geo` construction with `api_blocks=None`. -/
theorem default_api_blocks_applied_witness :
    geoGen.api_blocks = defaultApiBlocks
      ∧ geoGen.service_obj.api_blocks = defaultApiBlocks :=
  default_api_blocks_applied "svc" "geo" "postgresql://db" none false geoDB
    geoGen (by rfl)

/-- C3: a `generate_yaml_files` call hands the three documents to the
writer for the given output location in the fixed order service,
data-provider, tile-provider. -/
theorem generate_fixed_order (g : LDProxyConfigGenerator) (dir : String)
    (d : ProviderDoc) (hd : g.sql_provider_obj.createDoc = Except.ok d) :
    g.generate_yaml_files dir =
      ⟨[⟨dir, Doc.service g.service_obj.createDoc⟩,
        ⟨dir, Doc.provider d⟩,
        ⟨dir, Doc.tiles g.tile_provider_obj.createDoc⟩], none⟩ := by
  unfold LDProxyConfigGenerator.generate_yaml_files
  rw [hd]

/-- C3 witness: generating into "out" from the `geo` orchestrator. -/
theorem generate_fixed_order_witness :
    geoGen.generate_yaml_files "out" =
      ⟨[⟨"out", Doc.service geoGen.service_obj.createDoc⟩,
        ⟨"out", Doc.provider geoProviderDoc⟩,
        ⟨"out", Doc.tiles geoGen.tile_provider_obj.createDoc⟩], none⟩ :=
  generate_fixed_order geoGen "out" geoProviderDoc (by rfl)

/-- C4: two successive `generate` calls on an unchanged instance yield
equal results — identical documents, writes and ordering. -/
theorem generate_deterministic (g : LDProxyConfigGenerator) (dir : String) :
    ((g.generate_call dir).2.generate_call dir).1 = (g.generate_call dir).1 :=
  rfl

/-- C5 counterexample: after `dispose_engine`, a further
`generate_yaml_files` call raises no error at all — in particular no
`DisposedError` — and still performs all three writes. -/
theorem dispose_then_generate_succeeds :
    (geoGen.dispose_engine.generate_yaml_files "out").error = none
      ∧ (geoGen.dispose_engine.generate_yaml_files "out").writes.length = 3 := by
  constructor <;> rfl

/-- C5 amended: the orchestrator keeps no disposed state; after
`dispose_engine`, `generate_yaml_files` behaves exactly as before
disposal instead of failing with `DisposedError`. -/
theorem dispose_does_not_affect_generate (g : LDProxyConfigGenerator)
    (dir : String) :
    g.dispose_engine.generate_yaml_files dir = g.generate_yaml_files dir :=
  rfl

/-- C6 counterexample: construction with the unrecognized flag "BOGUS"
succeeds and stores the flag, handing it to the service generator. -/
theorem unknown_flag_not_rejected :
    (initRun "svc" "geo" "postgresql://db" (some ["parks"]) (some ["BOGUS"])
        false geoDB).result = Except.ok bogusGen
      ∧ bogusGen.service_obj.api_blocks = ["BOGUS"] := by
  constructor <;> rfl

/-- C6 amended: construction performs no capability-flag validation: its
external events and its error outcome are independent of the `api_blocks`
argument, so an unrecognized flag is silently accepted and passed
through. -/
theorem init_flag_validation_absent
    (sid sch conn : String) (tt : Option (List String))
    (a b : Option (List String)) (dk : Bool) (db : DatabaseClient) :
    (initRun sid sch conn tt a dk db).events
        = (initRun sid sch conn tt b dk db).events
      ∧ (initRun sid sch conn tt a dk db).errorOf
        = (initRun sid sch conn tt b dk db).errorOf := by
  unfold initRun
  cases tt with
  | none =>
      cases db.get_schema_tables with
      | error e => exact ⟨rfl, rfl⟩
      | ok ts =>
          exact initWithTargets_blocks_independent sid sch conn ts
            (pyOrBlocks a) (pyOrBlocks b) dk db [Event.queryTables sch]
  | some ts =>
      exact initWithTargets_blocks_independent sid sch conn ts
        (pyOrBlocks a) (pyOrBlocks b) dk db []

/-- C7: a failed construction performs no document-writer call: every
external event of the construction phase is a metadata query, never a
write, so the output location is untouched. -/
theorem failed_init_no_writes
    (sid sch conn : String) (tt ab : Option (List String)) (dk : Bool)
    (db : DatabaseClient) (e : MetaError)
    (h : (initRun sid sch conn tt ab dk db).result = Except.error e) :
    (initRun sid sch conn tt ab dk db).events.all
      (fun ev => !ev.isWrite) = true := by
  clear h
  unfold initRun
  cases tt with
  | none =>
      cases db.get_schema_tables with
      | error e2 => rfl
      | ok ts =>
          exact initWithTargets_no_writes sid sch conn ts (pyOrBlocks ab) dk
            db [Event.queryTables sch] (by rfl)
  | some ts =>
      exact initWithTargets_no_writes sid sch conn ts (pyOrBlocks ab) dk
        db [] (by rfl)

/-- C7 witness: construction against an unreachable database fails with
`ConnectionError` and performed no write. -/
theorem failed_init_no_writes_witness :
    (initRun "svc" "geo" "postgresql://db" none none false downDB).events.all
      (fun ev => !ev.isWrite) = true :=
  failed_init_no_writes "svc" "geo" "postgresql://db" none none false downDB
    MetaError.connectionError (by rfl)

/-- C8: a `generate_yaml_files` call that raises leaves the documents
already handed to the writer in place: on failure the service document
write has been performed and is not rolled back. -/
theorem failed_generate_keeps_earlier_writes
    (g : LDProxyConfigGenerator) (dir : String) (e : MetaError)
    (h : (g.generate_yaml_files dir).error = some e) :
    (g.generate_yaml_files dir).writes
      = [⟨dir, Doc.service g.service_obj.createDoc⟩] := by
  unfold LDProxyConfigGenerator.generate_yaml_files at h ⊢
  cases hd : g.sql_provider_obj.createDoc with
  | error e2 => rfl
  | ok d => rw [hd] at h; exact absurd h (by simp)

/-- C8 witness: generating from the `jsonb` orchestrator raises
`UnsupportedTypeError` after the service document was written. -/
theorem failed_generate_keeps_earlier_writes_witness :
    (jsonbGen.generate_yaml_files "out").writes
      = [⟨"out", Doc.service jsonbGen.service_obj.createDoc⟩] :=
  failed_generate_keeps_earlier_writes jsonbGen "out"
    (MetaError.unsupportedTypeError "notes" "payload") (by rfl)

/-- C9: `dispose_engine` is idempotent — a second call leaves the instance
exactly as the first did. -/
theorem dispose_idempotent (g : LDProxyConfigGenerator) :
    g.dispose_engine.dispose_engine = g.dispose_engine :=
  rfl

/-- C10: an explicitly empty `api_blocks` list is treated exactly like an
absent argument — Python's `or` replaces both by the full default flag
set, so a caller cannot disable all capability flags. -/
theorem empty_api_blocks_defaults
    (sid sch conn : String) (tt : Option (List String)) (dk : Bool)
    (db : DatabaseClient) :
    initRun sid sch conn tt (some []) dk db
        = initRun sid sch conn tt none dk db
      ∧ pyOrBlocks (some []) = defaultApiBlocks := by
  exact ⟨rfl, rfl⟩
